import Mathlib

/-!
Verification development for the environment-based configuration pipeline of
the exposure notifications verification server (package `config`) and the
request-context user lookup (package `controller`).

The Go source is embedded shallowly:
- `time.Duration` is an `Int` counting nanoseconds;
- Go errors are structured values (`GoError`), with one constructor per
  distinct way the embedded code builds an error;
- a Go function returning `(*T, error)` is embedded as a function returning
  `Option T × Option GoError`, mirroring the two Go return values;
- external collaborators (the envconfig decoder, the secrets package, the
  base64 utility) are either abstract parameters or, where the claims need
  their behaviour, modelled from the specification (marked as such).
-/

/-- Go `time.Duration`: a signed 64-bit count of nanoseconds.  The embedded
code never overflows 64 bits, so a plain `Int` is used. -/
abbrev GoDuration := Int

/-- Structured model of Go `error` values as the embedded code builds them.
`errorf` is `fmt.Errorf` with `%v` placeholders already split out as a list
of rendered arguments; `wrap` is `fmt.Errorf("<context>: %w", inner)`;
`wrapv` is `fmt.Errorf("<context>: %v", inner)`.  `missingRequired` and
`typeConversion` are the decoder errors named by the specification.
`external` stands for an opaque error produced by an external collaborator. -/
inductive GoError where
  | errorf (format : String) (args : List String)
  | wrap (context : String) (inner : GoError)
  | wrapv (context : String) (inner : GoError)
  | missingRequired (key : String)
  | typeConversion (key : String) (ty : String) (raw : String)
  | external (tag : String)
deriving DecidableEq, Repr

/-- `FirebaseConfig` from the source: eight required string fields. -/
structure FirebaseConfig where
  APIKey : String
  AuthDomain : String
  DatabaseURL : String
  ProjectID : String
  StorageBucket : String
  MessageSenderID : String
  AppID : String
  MeasurementID : String
deriving DecidableEq, Repr

/-- `Config` from the source, field for field in declaration order.  The
`Database` field has type `database.Config`, an external collaborator whose
fields are not part of the embedded source, so `Config` is polymorphic in
the type `DBC` of that field.  Go `uint`/`uint64` fields are `Nat`,
durations are `GoDuration`. -/
structure Config (DBC : Type) where
  Firebase : FirebaseConfig
  Database : DBC
  Port : Int
  SessionCookieDuration : GoDuration
  RevokeCheckPeriod : GoDuration
  CSRFAuthKey : String
  ServerName : String
  CodeDuration : GoDuration
  CodeDigits : Nat
  CollisionRetryCount : Nat
  AllowedTestAge : GoDuration
  APIKeyCacheDuration : GoDuration
  RateLimit : Nat
  VerificationTokenDuration : GoDuration
  TokenSigningKey : String
  TokenSigningKeyID : String
  TokenIssuer : String
  PublicKeyCacheDuration : GoDuration
  CertificateSigningKey : String
  CertificateSigningKeyID : String
  CertificateIssuer : String
  CertificateAudience : String
  CertificateDuration : GoDuration
  CleanupPeriod : GoDuration
  DisabledUserMaxAge : GoDuration
  VerificationCodeMaxAge : GoDuration
  VerificationTokenMaxAge : GoDuration
  AssetsPath : String
  DevMode : Bool
deriving DecidableEq, Repr

variable {DBC : Type}

/-- `checkPositiveDuration` from the source: an error when `d < 0`, nil
otherwise.  Go renders the duration with `Duration.String`; the model
renders it as its decimal nanosecond count, which no claim depends on. -/
def checkPositiveDuration (d : GoDuration) (name : String) : Option GoError :=
  if d < 0 then
    some (.errorf "%v must be a positive duration, got: %v" [name, toString d])
  else
    none

/-- The anonymous check table built at the top of `Config.Validate`,
entry for entry in source order, names included verbatim. -/
def validateFields (c : Config DBC) : List (GoDuration × String) :=
  [(c.SessionCookieDuration, "SESSION_DUATION"),
   (c.RevokeCheckPeriod, "REVOKE_CHECK_DURATION"),
   (c.CodeDuration, "CODE_DURATION"),
   (c.AllowedTestAge, "ALLOWED_PAST_TEST_DAYS"),
   (c.APIKeyCacheDuration, "API_KEY_CACHE_DURATION"),
   (c.VerificationCodeMaxAge, "VERIFICATION_TOKEN_DURATION"),
   (c.PublicKeyCacheDuration, "PUBLIC_KEY_CACHE_DURATION"),
   (c.CleanupPeriod, "CLEANUP_PERIOD"),
   (c.DisabledUserMaxAge, "DISABLED_USER_MAX_AGE"),
   (c.VerificationCodeMaxAge, "VERIFICATION_CODE_MAX_AGE"),
   (c.VerificationTokenMaxAge, "VERIFICATION_TOKEN_MAX_AGE")]

/-- The loop body of `Config.Validate`: return the first check error. -/
def firstDurationError : List (GoDuration × String) → Option GoError
  | [] => none
  | (d, n) :: rest =>
    match checkPositiveDuration d n with
    | some e => some e
    | none => firstDurationError rest

/-- `Config.Validate` from the source: iterate the check table and return
the first failing check, nil when all pass. -/
def Config.Validate (c : Config DBC) : Option GoError :=
  firstDurationError (validateFields c)

/-- `Config.CSRFKey` from the source.  `base64util.DecodeString` is an
external collaborator, passed in as the abstract parameter `decodeB64`.
The pair mirrors the two Go return values `([]byte, error)`. -/
def Config.CSRFKey (decodeB64 : String → Except GoError (List Nat))
    (c : Config DBC) : Option (List Nat) × Option GoError :=
  match decodeB64 c.CSRFAuthKey with
  | .error e => (none, some (.wrapv "error decoding CSRF_AUTH_KEY" e))
  | .ok key =>
    if key.length ≠ 32 then
      (none, some (.errorf "CSRF_AUTH_KEY is not 32 bytes, got: %v" [toString key.length]))
    else
      (some key, none)

/-- Go `strings.ReplaceAll s old new` for a nonempty pattern `old`:
scan left to right, replace each non-overlapping occurrence, continue after
the replacement.  The source only ever calls this with the nonempty pattern
"https://"; for an empty pattern Go would instead interleave `new`, a case
this model maps to the identity and the program never exercises. -/
def replaceAllFuel (old new : List Char) : Nat → List Char → List Char
  | _, [] => []
  | 0, s => s
  | fuel + 1, c :: rest =>
    if old ≠ [] ∧ old.isPrefixOf (c :: rest) then
      new ++ replaceAllFuel old new fuel ((c :: rest).drop old.length)
    else
      c :: replaceAllFuel old new fuel rest

/-- Entry point of the scan: every step consumes at least one character of
the input, so `s.length` steps of fuel always suffice. -/
def replaceAll (old new s : List Char) : List Char :=
  replaceAllFuel old new s.length s

/-- Boolean substring check used to state the claim about occurrences. -/
def hasSubstring (pat : List Char) : List Char → Bool
  | [] => pat.isEmpty
  | c :: rest => pat.isPrefixOf (c :: rest) || hasSubstring pat rest

/-- The post-decode fixup line of `NewWith`:
`config.Firebase.DatabaseURL = strings.ReplaceAll(config.Firebase.DatabaseURL, "https://", "")`. -/
def stripScheme (s : String) : String :=
  String.mk (replaceAll "https://".toList "".toList s.toList)

/-- The postprocess step of `NewWith` as a function on the decoded config. -/
def postprocess (c : Config DBC) : Config DBC :=
  { c with Firebase := { c.Firebase with DatabaseURL := stripScheme c.Firebase.DatabaseURL } }

/-- A concrete all-zero `Config` used to build concrete test inputs. -/
def cfgZero : Config Unit :=
  { Firebase := { APIKey := "", AuthDomain := "", DatabaseURL := "", ProjectID := "",
                  StorageBucket := "", MessageSenderID := "", AppID := "", MeasurementID := "" }
    Database := ()
    Port := 0
    SessionCookieDuration := 0
    RevokeCheckPeriod := 0
    CSRFAuthKey := ""
    ServerName := ""
    CodeDuration := 0
    CodeDigits := 0
    CollisionRetryCount := 0
    AllowedTestAge := 0
    APIKeyCacheDuration := 0
    RateLimit := 0
    VerificationTokenDuration := 0
    TokenSigningKey := ""
    TokenSigningKeyID := ""
    TokenIssuer := ""
    PublicKeyCacheDuration := 0
    CertificateSigningKey := ""
    CertificateSigningKeyID := ""
    CertificateIssuer := ""
    CertificateAudience := ""
    CertificateDuration := 0
    CleanupPeriod := 0
    DisabledUserMaxAge := 0
    VerificationCodeMaxAge := 0
    VerificationTokenMaxAge := 0
    AssetsPath := ""
    DevMode := false }

/-- Concrete config whose only negative checked duration is
`VerificationCodeMaxAge`; used for claim C1. -/
def cfgC1 : Config Unit := { cfgZero with VerificationCodeMaxAge := -1 }

/-- Concrete config with two negative checked durations; used for claim C7. -/
def cfgC7 : Config Unit := { cfgZero with RevokeCheckPeriod := -5, CodeDuration := -7 }

/-- Concrete config with a negative `VerificationTokenDuration` and all
table-checked durations zero; used for claim C9. -/
def cfgC9 : Config Unit := { cfgZero with VerificationTokenDuration := -1 }

/-- Concrete config whose `Firebase.DatabaseURL` reassembles the scheme
after one replacement pass; used for claim C6. -/
def cfgC6 : Config Unit :=
  { cfgZero with Firebase := { cfgZero.Firebase with DatabaseURL := "htthttps://ps://" } }

/-- Modelled from the spec: the target semantic types of the FieldSpec
metadata (the Struct Decoder of `go-envconfig` is not part of the embedded
source; only its callers and the struct tags are).  The variants are the Go
types appearing in the `Config` tags. -/
inductive FieldType where
  | tString
  | tInt
  | tUint
  | tUint64
  | tBool
  | tDuration
deriving DecidableEq, Repr

/-- Decoded field values, one variant per `FieldType`. -/
inductive GoValue where
  | vString (s : String)
  | vInt (i : Int)
  | vUint (n : Nat)
  | vUint64 (n : Nat)
  | vBool (b : Bool)
  | vDuration (d : GoDuration)
deriving DecidableEq, Repr

/-- Modelled from the spec: a FieldSpec describes one configuration field,
with its environment key, required flag, optional default literal and
semantic type, read off the `env:"..."` tags of the source. -/
structure FieldSpec where
  name : String
  required : Bool
  dflt : Option String
  ftype : FieldType
deriving DecidableEq, Repr

/-- Modelled from the spec: a MutatorFunc rewrites a raw field value. -/
abbrev Mutator := FieldSpec → String → Except GoError String

/-- Digits of a decimal literal folded into a number. -/
def natOfDigits (cs : List Char) : Nat :=
  cs.foldl (fun a c => 10 * a + (c.toNat - 48)) 0

/-- Go `strconv` unsigned decimal parse (range checks elided; the embedded
defaults are tiny). -/
def parseGoNat (s : String) : Option Nat :=
  let cs := s.toList
  if cs ≠ [] ∧ cs.all Char.isDigit then some (natOfDigits cs) else none

/-- Go `strconv` signed decimal parse. -/
def parseGoInt (s : String) : Option Int :=
  match s.toList with
  | '-' :: rest =>
    if rest ≠ [] ∧ rest.all Char.isDigit then some (-(natOfDigits rest : Int)) else none
  | '+' :: rest =>
    if rest ≠ [] ∧ rest.all Char.isDigit then some ((natOfDigits rest : Int)) else none
  | cs =>
    if cs ≠ [] ∧ cs.all Char.isDigit then some ((natOfDigits cs : Int)) else none

/-- Go `strconv.ParseBool` accepted literals. -/
def parseGoBool (s : String) : Option Bool :=
  if s ∈ ["1", "t", "T", "TRUE", "true", "True"] then some true
  else if s ∈ ["0", "f", "F", "FALSE", "false", "False"] then some false
  else none

/-- Nanoseconds per Go duration unit. -/
def unitNanos (u : List Char) : Option Int :=
  if u = "ns".toList then some 1
  else if u = "us".toList then some 1000
  else if u = "µs".toList then some 1000
  else if u = "ms".toList then some 1000000
  else if u = "s".toList then some 1000000000
  else if u = "m".toList then some 60000000000
  else if u = "h".toList then some 3600000000000
  else none

/-- Modelled from the spec: duration conversion in the Go duration syntax,
as a sequence of integer components each followed by a unit ("1h30m").
Fractional components never occur in the embedded defaults and are not
modelled.  Each step consumes at least one character, so `length` fuel
suffices. -/
def parseDurAux : Nat → List Char → Option Int
  | _, [] => some 0
  | 0, _ :: _ => none
  | fuel + 1, c :: rest0 =>
    let cs := c :: rest0
    let ds := cs.takeWhile Char.isDigit
    let rest := cs.dropWhile Char.isDigit
    if ds = [] then none
    else
      let us := rest.takeWhile (fun ch => !ch.isDigit)
      let rest2 := rest.dropWhile (fun ch => !ch.isDigit)
      match unitNanos us with
      | none => none
      | some mult =>
        match parseDurAux fuel rest2 with
        | none => none
        | some tail => some ((natOfDigits ds : Int) * mult + tail)

/-- Unsigned duration body: "0" is the only unit-less literal accepted. -/
def parseDurBody (cs : List Char) : Option Int :=
  if cs = [] then none
  else if cs = ['0'] then some 0
  else parseDurAux cs.length cs

/-- Go `time.ParseDuration` on the modelled grammar, sign included. -/
def parseGoDuration (s : String) : Option Int :=
  match s.toList with
  | '-' :: rest => (parseDurBody rest).map (fun d => -d)
  | '+' :: rest => parseDurBody rest
  | cs => parseDurBody cs

/-- Zero value of each semantic type (a field left untouched by the
decoder keeps the Go zero value of its type). -/
def zeroValue : FieldType → GoValue
  | .tString => .vString ""
  | .tInt => .vInt 0
  | .tUint => .vUint 0
  | .tUint64 => .vUint64 0
  | .tBool => .vBool false
  | .tDuration => .vDuration 0

/-- Modelled from the spec: type conversion of the (possibly mutated)
string; a failure is a TypeConversionError naming the key, the attempted
type and the raw value. -/
def convertValue (key : String) : FieldType → String → Except GoError GoValue
  | .tString, s => .ok (.vString s)
  | .tInt, s =>
    match parseGoInt s with
    | some i => .ok (.vInt i)
    | none => .error (.typeConversion key "int" s)
  | .tUint, s =>
    match parseGoNat s with
    | some n => .ok (.vUint n)
    | none => .error (.typeConversion key "uint" s)
  | .tUint64, s =>
    match parseGoNat s with
    | some n => .ok (.vUint64 n)
    | none => .error (.typeConversion key "uint64" s)
  | .tBool, s =>
    match parseGoBool s with
    | some b => .ok (.vBool b)
    | none => .error (.typeConversion key "bool" s)
  | .tDuration, s =>
    match parseGoDuration s with
    | some d => .ok (.vDuration d)
    | none => .error (.typeConversion key "time.Duration" s)

/-- Modelled from the spec: the registered mutators are applied in order;
a mutator failure aborts with that error annotated with the field name. -/
def applyMutators (fs : FieldSpec) : List Mutator → String → Except GoError String
  | [], raw => .ok raw
  | m :: rest, raw =>
    match m fs raw with
    | .error e => .error (.wrap fs.name e)
    | .ok v => applyMutators fs rest v

/-- Modelled from the spec: the per-field algorithm of the Struct Decoder.
Look the key up; if absent use the default literal when one is declared,
fail with MissingRequiredField when the field is required, and keep the
zero value otherwise; pass the raw string through the mutators; convert. -/
def decodeField (L : String → Option String) (ms : List Mutator)
    (fs : FieldSpec) : Except GoError GoValue :=
  match L fs.name with
  | some raw =>
    match applyMutators fs ms raw with
    | .error e => .error e
    | .ok v => convertValue fs.name fs.ftype v
  | none =>
    match fs.dflt with
    | some d =>
      match applyMutators fs ms d with
      | .error e => .error e
      | .ok v => convertValue fs.name fs.ftype v
    | none =>
      if fs.required then .error (.missingRequired fs.name)
      else .ok (zeroValue fs.ftype)

/-- Modelled from the spec: `envconfig.ProcessWith` decodes the fields in
declaration order and fails on the first field error, with no partial
success. -/
def ProcessWith (L : String → Option String) (ms : List Mutator) :
    List FieldSpec → Except GoError (List (String × GoValue))
  | [] => .ok []
  | fs :: rest =>
    match decodeField L ms fs with
    | .error e => .error e
    | .ok v =>
      match ProcessWith L ms rest with
      | .error e => .error e
      | .ok kvs => .ok ((fs.name, v) :: kvs)

/-- Boolean success test for `Except` results. -/
def isOkE {ε α : Type} : Except ε α → Bool
  | .ok _ => true
  | .error _ => false

/-- FieldSpecs of the nested `FirebaseConfig`, from its `env` tags. -/
def firebaseFieldSpecs : List FieldSpec :=
  [{ name := "FIREBASE_API_KEY", required := true, dflt := none, ftype := .tString },
   { name := "FIREBASE_AUTH_DOMAIN", required := true, dflt := none, ftype := .tString },
   { name := "FIREBASE_DATABASE_URL", required := true, dflt := none, ftype := .tString },
   { name := "FIREBASE_PROJECT_ID", required := true, dflt := none, ftype := .tString },
   { name := "FIREBASE_STORAGE_BUCKET", required := true, dflt := none, ftype := .tString },
   { name := "FIREBASE_MESSAGE_SENDER_ID", required := true, dflt := none, ftype := .tString },
   { name := "FIREBASE_APP_ID", required := true, dflt := none, ftype := .tString },
   { name := "FIREBASE_MEASUREMENT_ID", required := true, dflt := none, ftype := .tString }]

/-- FieldSpec of `Port`, tag `env:"PORT,default=8080"`. -/
def portSpec : FieldSpec :=
  { name := "PORT", required := false, dflt := some "8080", ftype := .tInt }

/-- FieldSpec of `SessionCookieDuration`, tag `env:"SESSION_DURATION,default=24h"`. -/
def sessionDurationSpec : FieldSpec :=
  { name := "SESSION_DURATION", required := false, dflt := some "24h", ftype := .tDuration }

/-- FieldSpec of `CodeDuration`, tag `env:"CODE_DURATION,default=1h"`. -/
def codeDurationSpec : FieldSpec :=
  { name := "CODE_DURATION", required := false, dflt := some "1h", ftype := .tDuration }

/-- FieldSpec of `CodeDigits`, tag `env:"CODE_DIGITS,default=8"`. -/
def codeDigitsSpec : FieldSpec :=
  { name := "CODE_DIGITS", required := false, dflt := some "8", ftype := .tUint }

/-- FieldSpecs of the `Config` fields declared before `TokenSigningKey`,
in declaration order, tags verbatim (typos of the source included). -/
def preTokenSpecs : List FieldSpec :=
  [portSpec,
   sessionDurationSpec,
   { name := "REVOKE_CHECK_DURATION", required := false, dflt := some "5m", ftype := .tDuration },
   { name := "CSRF_AUTH_KEY", required := true, dflt := none, ftype := .tString },
   { name := "SERVER_NAME", required := false, dflt := some "Diagnosis Verification Server", ftype := .tString },
   codeDurationSpec,
   codeDigitsSpec,
   { name := "COLISSION_RETRY_COUNT", required := false, dflt := some "6", ftype := .tUint },
   { name := "ALLOWRD_PAST_TEST_DAYS", required := false, dflt := some "336h", ftype := .tDuration },
   { name := "API_KEY_CACHE_DURATION", required := false, dflt := some "5m", ftype := .tDuration },
   { name := "RATE_LIMIT", required := false, dflt := some "60", ftype := .tUint64 },
   { name := "VERIFICATION_TOKEN_DURATION", required := false, dflt := some "24h", ftype := .tDuration }]

/-- FieldSpec of `TokenSigningKey`, tag `env:"TOKEN_SIGNING_KEY,required"`. -/
def tokenSigningKeySpec : FieldSpec :=
  { name := "TOKEN_SIGNING_KEY", required := true, dflt := none, ftype := .tString }

/-- FieldSpecs of the `Config` fields declared after `TokenSigningKey`. -/
def postTokenSpecs : List FieldSpec :=
  [{ name := "TOKEN_SIGNING_KEY_ID", required := false, dflt := some "v1", ftype := .tString },
   { name := "TOKEN_ISSUER", required := false, dflt := some "diagnosis-verification-example", ftype := .tString },
   { name := "PUBLIC_KEY_CACHE_DURATION", required := false, dflt := some "15m", ftype := .tDuration },
   { name := "CERTIFICATE_SIGNING_KEY", required := true, dflt := none, ftype := .tString },
   { name := "CERTIFICATE_SIGNING_KEY_ID", required := false, dflt := some "v1", ftype := .tString },
   { name := "CERTIFICATE_ISSUER", required := false, dflt := some "diagnosis-verification-example", ftype := .tString },
   { name := "CERTIFICATE_AUDIENCE", required := false, dflt := some "exposure-notifications-server", ftype := .tString },
   { name := "CERTIFICATE_DURATION", required := false, dflt := some "15m", ftype := .tDuration },
   { name := "CLEANUP_PERIOD", required := false, dflt := some "15m", ftype := .tDuration },
   { name := "DIABLED_USER_MAX_AGE", required := false, dflt := some "336h", ftype := .tDuration },
   { name := "VERIFICATION_CODE_MAX_AGE", required := false, dflt := some "24h", ftype := .tDuration },
   { name := "VERIFICATION_TOKEN_MAX_AGE", required := false, dflt := some "24h", ftype := .tDuration },
   { name := "ASSETS_PATH", required := false, dflt := some "./cmd/server/assets", ftype := .tString },
   { name := "DEV_MODE", required := false, dflt := none, ftype := .tBool }]

/-- All FieldSpecs of `Config` in declaration order.  The nested
`database.Config` fields are external and unknown, so they are a
parameter spliced in at the position of the `Database` field. -/
def configFieldSpecs (dbSpecs : List FieldSpec) : List FieldSpec :=
  firebaseFieldSpecs ++ dbSpecs ++ preTokenSpecs ++ tokenSigningKeySpec :: postTokenSpecs

/-- The two fields of `secrets.Config` that `NewWith` reads (the meta
configuration of the bootstrap). -/
structure SMConfig where
  SecretManagerType : String
  SecretCacheTTL : GoDuration
deriving DecidableEq, Repr

/-- Instrumentation of the bootstrap: one trace element per stage call site
of `NewWith`, recording for the mutator-construction site which secret
manager value was handed to `secrets.Resolver`. -/
inductive Stage (SM : Type) where
  | metaDecode
  | smConstruct
  | wrapCache
  | buildMutator (sm : SM)
  | mainDecode
  | postprocessStage
  | validateStage
deriving DecidableEq, Repr

/-- Constructor tag of a stage, payload erased; used to state that no
stage runs twice. -/
def stageTag {SM : Type} : Stage SM → Nat
  | .metaDecode => 0
  | .smConstruct => 1
  | .wrapCache => 2
  | .buildMutator _ => 3
  | .mainDecode => 4
  | .postprocessStage => 5
  | .validateStage => 6

/-- External collaborators called by `NewWith`, abstracted: the meta decode
result, `secrets.SecretManagerFor`, `secrets.WrapCacher`,
`secrets.Resolver` and the main `envconfig.ProcessWith` call (which closes
over the same context and lookuper in the source). -/
structure Externals (SM DBC : Type) where
  processSMConfig : Except GoError SMConfig
  secretManagerFor : String → Except GoError SM
  wrapCacher : SM → GoDuration → Except GoError SM
  resolver : SM → SMConfig → Mutator
  processMain : List Mutator → Except GoError (Config DBC)

/-- Tail of `NewWith` after the secret manager is settled: build the
mutator list, run the main decode, the postprocess fixup and `Validate`.
The pair mirrors the Go return values `(*Config, error)`; the list is the
stage trace. -/
def NewWithRest {SM DBC : Type} (ext : Externals SM DBC) (smConfig : SMConfig)
    (sm : SM) (tr : List (Stage SM)) :
    (Option (Config DBC) × Option GoError) × List (Stage SM) :=
  match ext.processMain [ext.resolver sm smConfig] with
  | .error err => ((none, some err), tr ++ [.buildMutator sm, .mainDecode])
  | .ok cfg =>
    match (postprocess cfg).Validate with
    | some err =>
      ((none, some err), tr ++ [.buildMutator sm, .mainDecode, .postprocessStage, .validateStage])
    | none =>
      ((some (postprocess cfg), none), tr ++ [.buildMutator sm, .mainDecode, .postprocessStage, .validateStage])

/-- `NewWith` from the source: decode the meta config, construct the secret
manager, wrap it with the cache when a positive TTL was provided, then run
the main decode, postprocess and validation, short-circuiting on the first
error. -/
def NewWith {SM DBC : Type} (ext : Externals SM DBC) :
    (Option (Config DBC) × Option GoError) × List (Stage SM) :=
  match ext.processSMConfig with
  | .error err =>
    ((none, some (.wrap "unable to process secret configuration" err)), [.metaDecode])
  | .ok smConfig =>
    match ext.secretManagerFor smConfig.SecretManagerType with
    | .error err =>
      ((none, some (.wrap "unable to connect to secret manager" err)), [.metaDecode, .smConstruct])
    | .ok sm =>
      if 0 < smConfig.SecretCacheTTL then
        match ext.wrapCacher sm smConfig.SecretCacheTTL with
        | .error err =>
          ((none, some (.wrap "unable to create secret manager cache" err)),
            [.metaDecode, .smConstruct, .wrapCache])
        | .ok sm2 => NewWithRest ext smConfig sm2 [.metaDecode, .smConstruct, .wrapCache]
      else
        NewWithRest ext smConfig sm [.metaDecode, .smConstruct]

/-- A mutator that passes every value through unchanged. -/
def identityMutator : Mutator := fun _ s => .ok s

/-- Concrete meta config with caching disabled (TTL 0). -/
def smcNoCache : SMConfig := { SecretManagerType := "GOOGLE_SECRET_MANAGER", SecretCacheTTL := 0 }

/-- Concrete externals whose meta decode fails; used as the C2 witness input. -/
def extC2 : Externals Unit Unit :=
  { processSMConfig := .error (.external "meta decode failed")
    secretManagerFor := fun _ => .ok ()
    wrapCacher := fun _ _ => .ok ()
    resolver := fun _ _ => identityMutator
    processMain := fun _ => .ok cfgZero }

/-- Concrete externals with caching disabled; used as the C5 witness input. -/
def extC5 : Externals Unit Unit :=
  { processSMConfig := .ok smcNoCache
    secretManagerFor := fun _ => .ok ()
    wrapCacher := fun _ _ => .ok ()
    resolver := fun _ _ => identityMutator
    processMain := fun _ => .ok cfgZero }

/-- Environment keys the C3 witness lookuper populates: every required
string field other than TOKEN_SIGNING_KEY. -/
def requiredStringKeys : List String :=
  ["FIREBASE_API_KEY", "FIREBASE_AUTH_DOMAIN", "FIREBASE_DATABASE_URL",
   "FIREBASE_PROJECT_ID", "FIREBASE_STORAGE_BUCKET", "FIREBASE_MESSAGE_SENDER_ID",
   "FIREBASE_APP_ID", "FIREBASE_MEASUREMENT_ID", "CSRF_AUTH_KEY",
   "CERTIFICATE_SIGNING_KEY"]

/-- Concrete lookuper missing TOKEN_SIGNING_KEY but holding every other
required key; optional fields fall back to their defaults. -/
def lookupC3 (k : String) : Option String :=
  if k ∈ requiredStringKeys then some "value" else none

/-- Concrete externals whose main decode is the modelled `ProcessWith` over
the `Config` FieldSpecs under `lookupC3`; used as the C3 witness input. -/
def extC3 : Externals Unit Unit :=
  { processSMConfig := .ok smcNoCache
    secretManagerFor := fun _ => .ok ()
    wrapCacher := fun _ _ => .ok ()
    resolver := fun _ _ => identityMutator
    processMain := fun ms =>
      match ProcessWith lookupC3 ms (configFieldSpecs []) with
      | .error e => .error e
      | .ok _ => .ok cfgZero }

/-- Value stored under the "user" context key, as the dynamic type of the
Go interface value: a pointer of static type `*database.User` (possibly the
nil pointer, hence the `Option`), or a value of any other type.
`database.User` itself is external, so the user type is a parameter. -/
inductive CtxValue (U : Type) where
  | userPtr (u : Option U)
  | otherVal
deriving DecidableEq, Repr

/-- The slice of the request that `GetUser` reads: the result of
`context.GetOk(r, "user")`. -/
structure Request (U : Type) where
  ctxUser : Option (CtxValue U)
deriving DecidableEq, Repr

/-- `GetUser` from the source.  The first pair mirrors the Go return values
`(*database.User, error)`; the list collects the flash error messages the
function emits. -/
def GetUser {U : Type} (r : Request U) :
    (Option U × Option GoError) × List String :=
  match r.ctxUser with
  | none => ((none, some (.errorf "unauthorized" [])), ["Unauthorized"])
  | some .otherVal =>
    ((none, some (.errorf "internal error" [])), ["internal error - you have been logged out."])
  | some (.userPtr u) => ((u, none), [])

/-- Concrete request whose context holds a nil `*database.User`; used as
the C10 counterexample input. -/
def reqNilUser : Request Unit := { ctxUser := some (CtxValue.userPtr none) }

/-- Concrete request whose context holds no "user" value. -/
def reqNoUser : Request Unit := { ctxUser := none }

/-- Helper: `firstDurationError` returns the check error of the first entry
with a negative duration when all earlier entries are non-negative. -/
theorem firstDurationError_of_first (l : List (GoDuration × String)) (i : Nat)
    (hi : i < l.length) (hneg : (l.get ⟨i, hi⟩).1 < 0)
    (hpre : ∀ j, ∀ hj : j < i, 0 ≤ (l.get ⟨j, Nat.lt_trans hj hi⟩).1) :
    firstDurationError l =
      some (.errorf "%v must be a positive duration, got: %v"
        [(l.get ⟨i, hi⟩).2, toString (l.get ⟨i, hi⟩).1]) := by
  induction l generalizing i with
  | nil => exact absurd hi (Nat.not_lt_zero i)
  | cons hd tl ih =>
    obtain ⟨d, n⟩ := hd
    cases i with
    | zero =>
      simp only [List.get] at hneg
      simp [firstDurationError, checkPositiveDuration, if_pos hneg]
    | succ i' =>
      have hhd : (0 : Int) ≤ d := by
        have h0 := hpre 0 (Nat.succ_pos i')
        simpa using h0
      have hhdnone : checkPositiveDuration d n = none := by
        unfold checkPositiveDuration
        exact if_neg (not_lt.mpr hhd)
      have hi' : i' < tl.length := Nat.lt_of_succ_lt_succ hi
      have hneg' : (tl.get ⟨i', hi'⟩).1 < 0 := hneg
      have hpre' : ∀ j, ∀ hj : j < i', 0 ≤ (tl.get ⟨j, Nat.lt_trans hj hi'⟩).1 := by
        intro j hj
        have h1 := hpre (j + 1) (Nat.succ_lt_succ hj)
        simpa using h1
      simp only [firstDurationError, hhdnone]
      exact ih i' hi' hneg' hpre'

/-- Claim C1 (code bug evidence): at a config whose only negative checked
duration is `VerificationCodeMaxAge`, `Validate` returns an error naming
VERIFICATION_TOKEN_DURATION, which is the environment key of a different
field; the violated field has environment key VERIFICATION_CODE_MAX_AGE. -/
theorem validate_misnames_checked_field :
    cfgC1.Validate =
      some (.errorf "%v must be a positive duration, got: %v"
        ["VERIFICATION_TOKEN_DURATION", "-1"])
    ∧ ("VERIFICATION_TOKEN_DURATION" == "VERIFICATION_CODE_MAX_AGE") = false := by
  exact ⟨by decide, by decide⟩

/-- Claim C7: when several checked durations are negative, `Validate`
returns exactly the check error of the first violated entry in the
declaration order of its check table, and reports nothing else. -/
theorem validate_returns_first_violation (DBC : Type) (c : Config DBC) (i : Nat)
    (hi : i < (validateFields c).length)
    (hneg : ((validateFields c).get ⟨i, hi⟩).1 < 0)
    (hpre : ∀ j, ∀ hj : j < i, 0 ≤ ((validateFields c).get ⟨j, Nat.lt_trans hj hi⟩).1) :
    c.Validate =
      some (.errorf "%v must be a positive duration, got: %v"
        [((validateFields c).get ⟨i, hi⟩).2, toString ((validateFields c).get ⟨i, hi⟩).1]) :=
  firstDurationError_of_first (validateFields c) i hi hneg hpre

/-- Witness for claim C7: a config with `RevokeCheckPeriod = -5` (table
index 1) and `CodeDuration = -7` (table index 2) yields the
REVOKE_CHECK_DURATION error and not the CODE_DURATION one. -/
theorem validate_returns_first_violation_witness :
    cfgC7.Validate =
      some (.errorf "%v must be a positive duration, got: %v"
        ["REVOKE_CHECK_DURATION", "-5"]) := by
  have h := validate_returns_first_violation Unit cfgC7 1 (by decide) (by decide)
    (by
      intro j hj
      have hj0 : j = 0 := Nat.lt_one_iff.mp hj
      subst hj0
      show (0 : Int) ≤ cfgC7.SessionCookieDuration
      decide)
  exact h

/-- Claim C9: the result of `Validate` does not depend on the
`VerificationTokenDuration` field, and a config whose only negative
duration is `VerificationTokenDuration` passes `Validate`. -/
theorem validate_independent_of_verification_token_duration :
    (∀ (DBC : Type) (c : Config DBC) (d d' : GoDuration),
      Config.Validate { c with VerificationTokenDuration := d } =
      Config.Validate { c with VerificationTokenDuration := d' })
    ∧ cfgC9.VerificationTokenDuration = -1 ∧ cfgC9.Validate = none := by
  exact ⟨fun DBC c d d' => rfl, rfl, by decide⟩

/-- Claim C6 counterexample: the postprocess step does not always remove
every occurrence of "https://": on the input "htthttps://ps://" a single
replacement pass reassembles exactly "https://". -/
theorem postprocess_leaves_scheme_counterexample :
    (postprocess cfgC6).Firebase.DatabaseURL = "https://"
    ∧ hasSubstring "https://".toList
        ((postprocess cfgC6).Firebase.DatabaseURL).toList = true := by
  exact ⟨by decide, by decide⟩

/-- Claim C6 (amended): the postprocess step rewrites only
`Firebase.DatabaseURL`, replacing each occurrence of "https://" found in one
left-to-right scan with the empty string (the result can still contain
"https://" when removal joins fragments); every other field of the config,
including the other Firebase fields, is unchanged. -/
theorem postprocess_frame (DBC : Type) (c : Config DBC) :
    (postprocess c).Firebase.DatabaseURL = stripScheme c.Firebase.DatabaseURL
    ∧ (postprocess c).Firebase.APIKey = c.Firebase.APIKey
    ∧ (postprocess c).Firebase.AuthDomain = c.Firebase.AuthDomain
    ∧ (postprocess c).Firebase.ProjectID = c.Firebase.ProjectID
    ∧ (postprocess c).Firebase.StorageBucket = c.Firebase.StorageBucket
    ∧ (postprocess c).Firebase.MessageSenderID = c.Firebase.MessageSenderID
    ∧ (postprocess c).Firebase.AppID = c.Firebase.AppID
    ∧ (postprocess c).Firebase.MeasurementID = c.Firebase.MeasurementID
    ∧ (postprocess c).Database = c.Database
    ∧ (postprocess c).Port = c.Port
    ∧ (postprocess c).SessionCookieDuration = c.SessionCookieDuration
    ∧ (postprocess c).RevokeCheckPeriod = c.RevokeCheckPeriod
    ∧ (postprocess c).CSRFAuthKey = c.CSRFAuthKey
    ∧ (postprocess c).ServerName = c.ServerName
    ∧ (postprocess c).CodeDuration = c.CodeDuration
    ∧ (postprocess c).CodeDigits = c.CodeDigits
    ∧ (postprocess c).CollisionRetryCount = c.CollisionRetryCount
    ∧ (postprocess c).AllowedTestAge = c.AllowedTestAge
    ∧ (postprocess c).APIKeyCacheDuration = c.APIKeyCacheDuration
    ∧ (postprocess c).RateLimit = c.RateLimit
    ∧ (postprocess c).VerificationTokenDuration = c.VerificationTokenDuration
    ∧ (postprocess c).TokenSigningKey = c.TokenSigningKey
    ∧ (postprocess c).TokenSigningKeyID = c.TokenSigningKeyID
    ∧ (postprocess c).TokenIssuer = c.TokenIssuer
    ∧ (postprocess c).PublicKeyCacheDuration = c.PublicKeyCacheDuration
    ∧ (postprocess c).CertificateSigningKey = c.CertificateSigningKey
    ∧ (postprocess c).CertificateSigningKeyID = c.CertificateSigningKeyID
    ∧ (postprocess c).CertificateIssuer = c.CertificateIssuer
    ∧ (postprocess c).CertificateAudience = c.CertificateAudience
    ∧ (postprocess c).CertificateDuration = c.CertificateDuration
    ∧ (postprocess c).CleanupPeriod = c.CleanupPeriod
    ∧ (postprocess c).DisabledUserMaxAge = c.DisabledUserMaxAge
    ∧ (postprocess c).VerificationCodeMaxAge = c.VerificationCodeMaxAge
    ∧ (postprocess c).VerificationTokenMaxAge = c.VerificationTokenMaxAge
    ∧ (postprocess c).AssetsPath = c.AssetsPath
    ∧ (postprocess c).DevMode = c.DevMode := by
  refine ⟨rfl, rfl, rfl, rfl, rfl, rfl, rfl, rfl, rfl, rfl, rfl, rfl, rfl, rfl, rfl,
    rfl, rfl, rfl, rfl, rfl, rfl, rfl, rfl, rfl, rfl, rfl, rfl, rfl, rfl, rfl, rfl,
    rfl, rfl, rfl, rfl, rfl⟩

/-- Claim C8: `CSRFKey` fails exactly when base64 decoding fails or the
decoded byte count is not 32; on success it returns precisely the decoded
bytes; the key result is present exactly when the error is nil.  Quantified
over every behaviour of the external base64 decoder. -/
theorem csrfKey_spec (decodeB64 : String → Except GoError (List Nat))
    (DBC : Type) (c : Config DBC) :
    ((Config.CSRFKey decodeB64 c).2 = none ↔
      ∃ k, decodeB64 c.CSRFAuthKey = .ok k ∧ k.length = 32)
    ∧ ((Config.CSRFKey decodeB64 c).1.isSome ↔ (Config.CSRFKey decodeB64 c).2 = none)
    ∧ (∀ k, decodeB64 c.CSRFAuthKey = .ok k → k.length = 32 →
        Config.CSRFKey decodeB64 c = (some k, none))
    ∧ (∀ e, decodeB64 c.CSRFAuthKey = .error e →
        (Config.CSRFKey decodeB64 c).2 = some (.wrapv "error decoding CSRF_AUTH_KEY" e))
    ∧ (∀ k, decodeB64 c.CSRFAuthKey = .ok k → k.length ≠ 32 →
        (Config.CSRFKey decodeB64 c).2 =
          some (.errorf "CSRF_AUTH_KEY is not 32 bytes, got: %v" [toString k.length])) := by
  rcases hdec : decodeB64 c.CSRFAuthKey with e | k
  · refine ⟨?_, ?_, ?_, ?_, ?_⟩
    · simp [Config.CSRFKey, hdec]
    · simp [Config.CSRFKey, hdec]
    · intro k' hk' _
      simp [hdec] at hk'
    · intro e' he
      have hee : e = e' := by simpa [hdec] using he
      subst hee
      simp [Config.CSRFKey, hdec]
    · intro k' hk'
      simp [hdec] at hk'
  · by_cases hlen : k.length = 32
    · refine ⟨?_, ?_, ?_, ?_, ?_⟩
      · simp [Config.CSRFKey, hdec, hlen]
      · simp [Config.CSRFKey, hdec, hlen]
      · intro k' hk' _
        have hkk : k = k' := by simpa [hdec] using hk'
        subst hkk
        simp [Config.CSRFKey, hdec, hlen]
      · intro e' he
        simp [hdec] at he
      · intro k' hk' hlen'
        have hkk : k = k' := by simpa [hdec] using hk'
        subst hkk
        exact absurd hlen hlen'
    · refine ⟨?_, ?_, ?_, ?_, ?_⟩
      · simp [Config.CSRFKey, hdec, hlen]
      · simp [Config.CSRFKey, hdec, hlen]
      · intro k' hk' hlen'
        have hkk : k = k' := by simpa [hdec] using hk'
        subst hkk
        exact absurd hlen' hlen
      · intro e' he
        simp [hdec] at he
      · intro k' hk' _
        have hkk : k = k' := by simpa [hdec] using hk'
        subst hkk
        simp [Config.CSRFKey, hdec, hlen]

/-- Witness for claim C8: with a decoder returning 32 zero bytes, `CSRFKey`
returns exactly those bytes and a nil error. -/
theorem csrfKey_spec_witness :
    Config.CSRFKey (fun _ => .ok (List.replicate 32 0)) cfgZero =
      (some (List.replicate 32 0), none) := by
  exact (csrfKey_spec (fun _ => .ok (List.replicate 32 0)) Unit cfgZero).2.2.1
    (List.replicate 32 0) rfl (by decide)

/-- Helper: mutators that all map the pair to the same value leave it
unchanged through the pipeline. -/
theorem applyMutators_id (fs : FieldSpec) (d : String) :
    ∀ ms : List Mutator, (∀ m ∈ ms, m fs d = .ok d) →
      applyMutators fs ms d = .ok d := by
  intro ms
  induction ms with
  | nil => intro _; rfl
  | cons m rest ih =>
    intro h
    have hm := h m (List.mem_cons_self m rest)
    simp only [applyMutators, hm]
    exact ih (fun m' hm' => h m' (List.mem_cons_of_mem m hm'))

/-- Helper: when every field of a front segment decodes successfully, a
decode error of the tail is the error of the whole list. -/
theorem processWith_error_of_front_ok (L : String → Option String)
    (ms : List Mutator) (xs ys : List FieldSpec) (e : GoError)
    (hxs : ∀ fs ∈ xs, isOkE (decodeField L ms fs) = true)
    (hys : ProcessWith L ms ys = .error e) :
    ProcessWith L ms (xs ++ ys) = .error e := by
  induction xs with
  | nil => simpa using hys
  | cons fs rest ih =>
    have hfs := hxs fs (List.mem_cons_self fs rest)
    rcases hdf : decodeField L ms fs with e' | v
    · rw [hdf] at hfs
      simp [isOkE] at hfs
    · have hrest := ih (fun g hg => hxs g (List.mem_cons_of_mem fs hg))
      simp [ProcessWith, hdf, hrest]

/-- Claim C2: `NewWith` returns a config exactly when it returns a nil
error; each stage failure short-circuits with the first error, wrapped as
at its call site (the main decode and validation errors pass unwrapped);
and no stage is ever invoked twice (the stage trace has pairwise distinct
stages). -/
theorem newWith_short_circuits (SM DBC : Type) (ext : Externals SM DBC) :
    ((NewWith ext).1.1.isSome ↔ (NewWith ext).1.2 = none)
    ∧ (∀ e, ext.processSMConfig = .error e →
        (NewWith ext).1 = (none, some (.wrap "unable to process secret configuration" e)))
    ∧ (∀ smc e, ext.processSMConfig = .ok smc →
        ext.secretManagerFor smc.SecretManagerType = .error e →
        (NewWith ext).1 = (none, some (.wrap "unable to connect to secret manager" e)))
    ∧ (∀ smc sm e, ext.processSMConfig = .ok smc →
        ext.secretManagerFor smc.SecretManagerType = .ok sm →
        0 < smc.SecretCacheTTL →
        ext.wrapCacher sm smc.SecretCacheTTL = .error e →
        (NewWith ext).1 = (none, some (.wrap "unable to create secret manager cache" e)))
    ∧ (∀ smc sm e, ext.processSMConfig = .ok smc →
        ext.secretManagerFor smc.SecretManagerType = .ok sm →
        ¬ 0 < smc.SecretCacheTTL →
        ext.processMain [ext.resolver sm smc] = .error e →
        (NewWith ext).1 = (none, some e))
    ∧ (∀ smc sm sm2 e, ext.processSMConfig = .ok smc →
        ext.secretManagerFor smc.SecretManagerType = .ok sm →
        0 < smc.SecretCacheTTL →
        ext.wrapCacher sm smc.SecretCacheTTL = .ok sm2 →
        ext.processMain [ext.resolver sm2 smc] = .error e →
        (NewWith ext).1 = (none, some e))
    ∧ (∀ smc sm cfg e, ext.processSMConfig = .ok smc →
        ext.secretManagerFor smc.SecretManagerType = .ok sm →
        ¬ 0 < smc.SecretCacheTTL →
        ext.processMain [ext.resolver sm smc] = .ok cfg →
        (postprocess cfg).Validate = some e →
        (NewWith ext).1 = (none, some e))
    ∧ (∀ smc sm sm2 cfg e, ext.processSMConfig = .ok smc →
        ext.secretManagerFor smc.SecretManagerType = .ok sm →
        0 < smc.SecretCacheTTL →
        ext.wrapCacher sm smc.SecretCacheTTL = .ok sm2 →
        ext.processMain [ext.resolver sm2 smc] = .ok cfg →
        (postprocess cfg).Validate = some e →
        (NewWith ext).1 = (none, some e))
    ∧ ((NewWith ext).2.map stageTag).Nodup := by
  have hmain : ((NewWith ext).1.1.isSome ↔ (NewWith ext).1.2 = none)
      ∧ ((NewWith ext).2.map stageTag).Nodup := by
    rcases hsm : ext.processSMConfig with e0 | smc
    · constructor
      · simp [NewWith, hsm]
      · simp [NewWith, hsm, stageTag]
    · rcases hsf : ext.secretManagerFor smc.SecretManagerType with e1 | sm
      · constructor
        · simp [NewWith, hsm, hsf]
        · simp [NewWith, hsm, hsf, stageTag]
      · by_cases httl : 0 < smc.SecretCacheTTL
        · rcases hw : ext.wrapCacher sm smc.SecretCacheTTL with e2 | sm2
          · constructor
            · simp [NewWith, hsm, hsf, httl, hw]
            · simp [NewWith, hsm, hsf, httl, hw, stageTag]
          · rcases hm : ext.processMain [ext.resolver sm2 smc] with e3 | cfg
            · constructor
              · simp [NewWith, NewWithRest, hsm, hsf, httl, hw, hm]
              · simp [NewWith, NewWithRest, hsm, hsf, httl, hw, hm, stageTag]
            · rcases hv : (postprocess cfg).Validate with _ | e4
              · constructor
                · simp [NewWith, NewWithRest, hsm, hsf, httl, hw, hm, hv]
                · simp [NewWith, NewWithRest, hsm, hsf, httl, hw, hm, hv, stageTag]
              · constructor
                · simp [NewWith, NewWithRest, hsm, hsf, httl, hw, hm, hv]
                · simp [NewWith, NewWithRest, hsm, hsf, httl, hw, hm, hv, stageTag]
        · rcases hm : ext.processMain [ext.resolver sm smc] with e3 | cfg
          · constructor
            · simp [NewWith, NewWithRest, hsm, hsf, httl, hm]
            · simp [NewWith, NewWithRest, hsm, hsf, httl, hm, stageTag]
          · rcases hv : (postprocess cfg).Validate with _ | e4
            · constructor
              · simp [NewWith, NewWithRest, hsm, hsf, httl, hm, hv]
              · simp [NewWith, NewWithRest, hsm, hsf, httl, hm, hv, stageTag]
            · constructor
              · simp [NewWith, NewWithRest, hsm, hsf, httl, hm, hv]
              · simp [NewWith, NewWithRest, hsm, hsf, httl, hm, hv, stageTag]
  refine ⟨hmain.1, ?_, ?_, ?_, ?_, ?_, ?_, ?_, hmain.2⟩
  · intro e he
    simp [NewWith, he]
  · intro smc e h1 h2
    simp [NewWith, h1, h2]
  · intro smc sm e h1 h2 h3 h4
    simp [NewWith, h1, h2, h3, h4]
  · intro smc sm e h1 h2 h3 h4
    simp [NewWith, NewWithRest, h1, h2, h3, h4]
  · intro smc sm sm2 e h1 h2 h3 h4 h5
    simp [NewWith, NewWithRest, h1, h2, h3, h4, h5]
  · intro smc sm cfg e h1 h2 h3 h4 h5
    simp [NewWith, NewWithRest, h1, h2, h3, h4, h5]
  · intro smc sm sm2 cfg e h1 h2 h3 h4 h5 h6
    simp [NewWith, NewWithRest, h1, h2, h3, h4, h5, h6]

/-- Witness for claim C2: with a failing meta decode, `NewWith` returns a
nil config and the wrapped first error. -/
theorem newWith_short_circuits_witness :
    (NewWith extC2).1 =
      (none, some (.wrap "unable to process secret configuration" (.external "meta decode failed"))) :=
  (newWith_short_circuits Unit Unit extC2).2.1 (.external "meta decode failed") rfl

/-- Claim C5: the cache-wrap stage runs exactly when the decoded meta
config has a strictly positive TTL; with TTL not positive the unwrapped
secret manager is the one handed to the resolver mutator, and with a
positive TTL the wrapped one is. -/
theorem newWith_cache_wrap_iff_ttl_positive (SM DBC : Type) (ext : Externals SM DBC)
    (smc : SMConfig) (sm : SM)
    (h1 : ext.processSMConfig = .ok smc)
    (h2 : ext.secretManagerFor smc.SecretManagerType = .ok sm) :
    (¬ 0 < smc.SecretCacheTTL →
      ((∀ s ∈ (NewWith ext).2, s ≠ Stage.wrapCache)
        ∧ Stage.buildMutator sm ∈ (NewWith ext).2))
    ∧ (∀ sm2, 0 < smc.SecretCacheTTL →
        ext.wrapCacher sm smc.SecretCacheTTL = .ok sm2 →
        (Stage.wrapCache ∈ (NewWith ext).2
          ∧ Stage.buildMutator sm2 ∈ (NewWith ext).2)) := by
  constructor
  · intro httl
    rcases hm : ext.processMain [ext.resolver sm smc] with e3 | cfg
    · constructor
      · intro s hs
        simp [NewWith, NewWithRest, h1, h2, httl, hm] at hs
        rcases hs with h | h | h | h <;> subst h <;> simp
      · simp [NewWith, NewWithRest, h1, h2, httl, hm]
    · rcases hv : (postprocess cfg).Validate with _ | e4
      · constructor
        · intro s hs
          simp [NewWith, NewWithRest, h1, h2, httl, hm, hv] at hs
          rcases hs with h | h | h | h | h | h <;> subst h <;> simp
        · simp [NewWith, NewWithRest, h1, h2, httl, hm, hv]
      · constructor
        · intro s hs
          simp [NewWith, NewWithRest, h1, h2, httl, hm, hv] at hs
          rcases hs with h | h | h | h | h | h <;> subst h <;> simp
        · simp [NewWith, NewWithRest, h1, h2, httl, hm, hv]
  · intro sm2 httl hw
    rcases hm : ext.processMain [ext.resolver sm2 smc] with e3 | cfg
    · constructor
      · simp [NewWith, NewWithRest, h1, h2, httl, hw, hm]
      · simp [NewWith, NewWithRest, h1, h2, httl, hw, hm]
    · rcases hv : (postprocess cfg).Validate with _ | e4
      · constructor
        · simp [NewWith, NewWithRest, h1, h2, httl, hw, hm, hv]
        · simp [NewWith, NewWithRest, h1, h2, httl, hw, hm, hv]
      · constructor
        · simp [NewWith, NewWithRest, h1, h2, httl, hw, hm, hv]
        · simp [NewWith, NewWithRest, h1, h2, httl, hw, hm, hv]

/-- Witness for claim C5: with TTL 0 the trace has no cache-wrap stage and
the resolver receives the unwrapped manager. -/
theorem newWith_cache_wrap_iff_ttl_positive_witness :
    (∀ s ∈ (NewWith extC5).2, s ≠ Stage.wrapCache)
      ∧ Stage.buildMutator () ∈ (NewWith extC5).2 :=
  (newWith_cache_wrap_iff_ttl_positive Unit Unit extC5 smcNoCache () rfl rfl).1 (by decide)

/-- Claim C3: when the lookuper behind the main decode is missing the
required TOKEN_SIGNING_KEY and every field declared before it decodes
successfully, `NewWith` fails with MissingRequiredField naming exactly that
key, and the validation stage never runs. -/
theorem newWith_missing_required_key_skips_validate (SM DBC : Type)
    (ext : Externals SM DBC) (smc : SMConfig) (sm : SM)
    (dbSpecs : List FieldSpec) (L : String → Option String)
    (h1 : ext.processSMConfig = .ok smc)
    (h2 : ext.secretManagerFor smc.SecretManagerType = .ok sm)
    (h3 : ¬ 0 < smc.SecretCacheTTL)
    (hmain : ∀ ms e, ProcessWith L ms (configFieldSpecs dbSpecs) = .error e →
      ext.processMain ms = .error e)
    (hL : L "TOKEN_SIGNING_KEY" = none)
    (hfront : ∀ fs ∈ firebaseFieldSpecs ++ dbSpecs ++ preTokenSpecs,
      isOkE (decodeField L [ext.resolver sm smc] fs) = true) :
    (NewWith ext).1 = (none, some (.missingRequired "TOKEN_SIGNING_KEY"))
    ∧ Stage.validateStage ∉ (NewWith ext).2 := by
  have htok : decodeField L [ext.resolver sm smc] tokenSigningKeySpec
      = .error (.missingRequired "TOKEN_SIGNING_KEY") := by
    simp [decodeField, tokenSigningKeySpec, hL]
  have htail : ProcessWith L [ext.resolver sm smc] (tokenSigningKeySpec :: postTokenSpecs)
      = .error (.missingRequired "TOKEN_SIGNING_KEY") := by
    simp [ProcessWith, htok]
  have hall : ProcessWith L [ext.resolver sm smc] (configFieldSpecs dbSpecs)
      = .error (.missingRequired "TOKEN_SIGNING_KEY") := by
    have h := processWith_error_of_front_ok L [ext.resolver sm smc]
      (firebaseFieldSpecs ++ dbSpecs ++ preTokenSpecs)
      (tokenSigningKeySpec :: postTokenSpecs)
      (.missingRequired "TOKEN_SIGNING_KEY") hfront htail
    simpa [configFieldSpecs, List.append_assoc] using h
  have hpm := hmain [ext.resolver sm smc] (.missingRequired "TOKEN_SIGNING_KEY") hall
  constructor
  · simp [NewWith, NewWithRest, h1, h2, h3, hpm]
  · simp [NewWith, NewWithRest, h1, h2, h3, hpm]

/-- Witness for claim C3: under the concrete lookuper missing only
TOKEN_SIGNING_KEY, the bootstrap fails with exactly that decoder error and
its trace has no validation stage. -/
theorem newWith_missing_required_key_skips_validate_witness :
    (NewWith extC3).1 = (none, some (.missingRequired "TOKEN_SIGNING_KEY"))
    ∧ Stage.validateStage ∉ (NewWith extC3).2 :=
  newWith_missing_required_key_skips_validate Unit Unit extC3 smcNoCache () [] lookupC3
    rfl rfl (by decide)
    (by
      intro ms e h
      simp [extC3, h])
    rfl
    (by decide)

/-- Claim C4: a field with a declared default whose environment key the
lookuper does not hold decodes to the conversion of that default literal,
unmutated when no mutator rewrites the pair; in particular Port decodes to
8080, CodeDuration to 1h, SessionCookieDuration to 24h and CodeDigits
to 8 (durations in nanoseconds). -/
theorem decodeField_defaults :
    (∀ (dbSpecs : List FieldSpec) (L : String → Option String) (ms : List Mutator)
      (fs : FieldSpec) (d : String),
      fs ∈ configFieldSpecs dbSpecs → fs.dflt = some d → L fs.name = none →
      (∀ m ∈ ms, m fs d = .ok d) →
      decodeField L ms fs = convertValue fs.name fs.ftype d)
    ∧ decodeField (fun _ => none) [] portSpec = .ok (.vInt 8080)
    ∧ decodeField (fun _ => none) [] codeDurationSpec = .ok (.vDuration 3600000000000)
    ∧ decodeField (fun _ => none) [] sessionDurationSpec = .ok (.vDuration 86400000000000)
    ∧ decodeField (fun _ => none) [] codeDigitsSpec = .ok (.vUint 8) := by
  refine ⟨?_, by rfl, by rfl, by rfl, by rfl⟩
  intro dbSpecs L ms fs d _ hd hL hms
  have hmut := applyMutators_id fs d ms hms
  simp [decodeField, hL, hd, hmut]

/-- Witness for claim C4: the PORT field of the Config spec table, with an
empty lookuper and no mutators, decodes to the conversion of its declared
default. -/
theorem decodeField_defaults_witness :
    portSpec ∈ configFieldSpecs []
    ∧ decodeField (fun _ => none) [] portSpec = convertValue portSpec.name portSpec.ftype "8080" := by
  refine ⟨by decide, ?_⟩
  exact decodeField_defaults.1 [] (fun _ => none) [] portSpec "8080" (by decide) rfl rfl
    (by intro m hm; simp at hm)

/-- Claim C10 counterexample: a request context holding a nil
`*database.User` makes `GetUser` return both a nil user and a nil error. -/
theorem getUser_typed_nil_counterexample :
    (GetUser reqNilUser).1.1 = none ∧ (GetUser reqNilUser).1.2 = none :=
  ⟨rfl, rfl⟩

/-- Claim C10 (amended): `GetUser` returns a nil error exactly when the
context holds a value of dynamic type `*database.User` under the "user"
key, and then returns that stored pointer (so user and error are both nil
exactly when the stored pointer is nil); it returns the "unauthorized"
error with an "Unauthorized" flash when the key is absent and the
"internal error" error with a logged-out flash when the value has another
type. -/
theorem getUser_spec (U : Type) (r : Request U) :
    ((GetUser r).1.2 = none ↔ ∃ u, r.ctxUser = some (.userPtr u))
    ∧ (r.ctxUser = none →
        GetUser r = ((none, some (.errorf "unauthorized" [])), ["Unauthorized"]))
    ∧ (r.ctxUser = some .otherVal →
        GetUser r = ((none, some (.errorf "internal error" [])),
          ["internal error - you have been logged out."]))
    ∧ (∀ u, r.ctxUser = some (.userPtr u) → (GetUser r).1 = (u, none)) := by
  rcases r with ⟨ctx⟩
  rcases ctx with _ | v
  · refine ⟨?_, ?_, ?_, ?_⟩
    · simp [GetUser]
    · intro _
      simp [GetUser]
    · intro h
      simp at h
    · intro u h
      simp at h
  · rcases v with u | _
    · refine ⟨?_, ?_, ?_, ?_⟩
      · simp [GetUser]
      · intro h
        simp at h
      · intro h
        simp at h
      · intro u' h
        have huu : u = u' := by simpa using h
        subst huu
        simp [GetUser]
    · refine ⟨?_, ?_, ?_, ?_⟩
      · simp [GetUser]
      · intro h
        simp at h
      · intro _
        simp [GetUser]
      · intro u h
        simp at h

/-- Witness for the amended claim C10: a context without a "user" value
yields the unauthorized error and flash. -/
theorem getUser_spec_witness :
    GetUser reqNoUser = ((none, some (.errorf "unauthorized" [])), ["Unauthorized"]) :=
  (getUser_spec Unit reqNoUser).2.1 rfl
